import Mathlib

/-!
Shallow embedding of `react-webworker` (src/src/index.js, the current
version of the component: the one with MessageChannel support, the
service-worker activation guard and the synchronous "Worker not
initialized" throw in `postMessage`).

Inbound payloads and outbound payloads share one type `δ` (the JS code is
untyped and the parser/serializer default to the identity).  Errors have
type `ε`.  Timestamps (`new Date()`) are modelled as natural numbers
supplied by the caller of each handler, since each handler reads the
clock exactly once.
-/

namespace ReactWebworker

variable {δ ε : Type}

/-- One entry of `messages`: `{ data, date }` as built by
`state.messages.concat({ data, date })` in `onMessage`. -/
structure MsgEntry (δ : Type) where
  data : δ
  date : Nat
  deriving Repr, DecidableEq

/-- One entry of `errors`: `{ error, date }` as built by
`state.errors.concat({ error, date })` in `onError`. -/
structure ErrEntry (ε : Type) where
  error : ε
  date : Nat
  deriving Repr, DecidableEq

/-- The component state initialised in the constructor:
`{ messages: [], errors: [], data: undefined, error: undefined,
updatedAt: undefined, lastPostAt: undefined }`.
(`postMessage` is also stored on the state object in the source, but it
is a method, not data, so it is kept separate here.) -/
structure SessionState (δ ε : Type) where
  messages : List (MsgEntry δ)
  errors : List (ErrEntry ε)
  data : Option δ
  error : Option ε
  updatedAt : Option Nat
  lastPostAt : Option Nat
  deriving Repr, DecidableEq

/-- The constructor's initial state. -/
def initialState : SessionState δ ε :=
  { messages := [], errors := [], data := none, error := none,
    updatedAt := none, lastPostAt := none }

/-- A worker-like handle.  `hasOnMessage` models the structural check
`"onmessage" in this.worker` from `componentDidMount`.  `swState`
models the service-worker `state` property as used by the guard
`this.worker.state && this.worker.state !== "activated"`: the JS
truthiness test on the property is folded into the `Option`, so `none`
stands for a handle whose `state` property is absent or falsy. -/
structure Handle where
  hasOnMessage : Bool
  swState : Option String
  deriving Repr, DecidableEq

/-- A caller-supplied `worker` prop.  `controller` models the optional
`worker.controller` field (a `ServiceWorkerContainer` exposes the active
service worker there); `componentDidMount` resolves the handle as
`worker.controller || worker`. -/
structure SuppliedWorker where
  controller : Option Handle
  self : Handle
  deriving Repr, DecidableEq

/-- The props recognised by the component: `url`, `options`, `worker`,
`parser`, `serializer`, `onMessage`, `onError`.  The two notification
callbacks are modelled by presence flags; the notifications actually
emitted are returned by the handlers below.  `options` is passed through
verbatim to worker construction and never inspected, so it is inert
here. -/
structure Props (δ ε : Type) where
  url : Option String
  options : Option Unit
  workerProp : Option SuppliedWorker
  parser : Option (δ → δ)
  serializer : Option (δ → δ)
  onMessageCb : Bool
  onErrorCb : Bool

/-- `this.props.parser ? this.props.parser(message.data) : message.data`. -/
def parse (p : Props δ ε) (d : δ) : δ :=
  match p.parser with
  | some f => f d
  | none => d

/-- `const { serializer = x => x } = this.props`. -/
def serialize (p : Props δ ε) (d : δ) : δ :=
  match p.serializer with
  | some f => f d
  | none => d

/-- Which object the message/error events were bound to at mount:
either the handle itself (`this.worker.onmessage = ...`) or the local
port of a freshly constructed `MessageChannel`
(`this.messageChannel.port1.onmessage = ...`). -/
inductive EventBinding where
  | direct
  | channelPort1
  deriving Repr, DecidableEq

/-- A mounted component instance: its props, its React state, the
`this.worker` field, whether `this.messageChannel` was created, which
object the event handlers were bound to (a ghost record of the branch
taken at mount), whether the mount was from `url` (a ghost record of the
branch taken by `url ? new Worker(url, options) : ...`), and the
`this.mounted` flag. -/
structure Bridge (δ ε : Type) where
  props : Props δ ε
  st : SessionState δ ε
  worker : Option Handle
  messageChannel : Bool
  binding : Option EventBinding
  createdFromUrl : Bool
  mounted : Bool

/-- `new window.Worker(url, options)`: a dedicated worker exposes direct
`onmessage`/`onerror` slots and has no service-worker `state`
property. -/
def newDedicatedWorker : Handle :=
  { hasOnMessage := true, swState := none }

/-- `this.worker = url ? new window.Worker(url, options)
: worker.controller || worker`.  Returns `none` when neither `url` nor
`worker` is supplied (the JS code would crash reading
`worker.controller` of `undefined`). -/
def resolveWorker (p : Props δ ε) : Option Handle :=
  match p.url with
  | some _ => some newDedicatedWorker
  | none =>
    match p.workerProp with
    | some sw => some (sw.controller.getD sw.self)
    | none => none

/-- `componentDidMount`: resolve the handle, then either bind the
handle's own `onmessage`/`onerror` slots (when `"onmessage" in
this.worker`) or create a `MessageChannel` and bind its `port1`, and
finally set `this.mounted = true`.  The session state is the one the
constructor installed. -/
def componentDidMount (p : Props δ ε) : Option (Bridge δ ε) :=
  match resolveWorker p with
  | none => none
  | some w =>
    some { props := p
           st := initialState
           worker := some w
           messageChannel := !w.hasOnMessage
           binding := some (if w.hasOnMessage then EventBinding.direct
                            else EventBinding.channelPort1)
           createdFromUrl := p.url.isSome
           mounted := true }

/-- A notification delivered to one of the optional side-channel
callbacks, inside the `setState` completion callback, i.e. after the
state update has been committed. -/
inductive Notification (δ ε : Type) where
  | message (d : δ)
  | error (e : ε)
  deriving Repr, DecidableEq

/-- The `onMessage` handler: bail out when `!this.mounted`; otherwise
parse the payload, read the clock once, append `{ data, date }` to
`messages`, set `data`, clear `error`, set `updatedAt`, and (after the
state update) invoke the optional `onMessage` prop with the parsed
data.  Returns the updated instance and the notifications emitted. -/
def onMessage (b : Bridge δ ε) (payload : δ) (date : Nat) :
    Bridge δ ε × List (Notification δ ε) :=
  if !b.mounted then (b, [])
  else
    let d := parse b.props payload
    ({ b with st := { b.st with
         data := some d
         error := none
         messages := b.st.messages ++ [{ data := d, date := date }]
         updatedAt := some date } },
     if b.props.onMessageCb then [Notification.message d] else [])

/-- The `onError` handler: bail out when `!this.mounted`; otherwise read
the clock once, append `{ error, date }` to `errors`, set `error`, set
`updatedAt` (leaving `data` and `messages` untouched), and afterwards
invoke the optional `onError` prop with the error. -/
def onError (b : Bridge δ ε) (err : ε) (date : Nat) :
    Bridge δ ε × List (Notification δ ε) :=
  if !b.mounted then (b, [])
  else
    ({ b with st := { b.st with
         error := some err
         errors := b.st.errors ++ [{ error := err, date := date }]
         updatedAt := some date } },
     if b.props.onErrorCb then [Notification.error err] else [])

/-- What one call to `postMessage` did: threw the synchronous
"Worker not initialized" error, returned silently because of the
service-worker activation guard, or dispatched a payload (with
`viaChannel = true` when the transfer list `[this.messageChannel.port2]`
was supplied). -/
inductive SendOutcome (δ : Type) where
  | notInitialized
  | ignored
  | posted (payload : δ) (viaChannel : Bool)
  deriving Repr, DecidableEq

/-- `this.worker.state && this.worker.state !== "activated"`. -/
def stateBlocks (w : Handle) : Bool :=
  match w.swState with
  | some s => s != "activated"
  | none => false

/-- The `postMessage` method: `if (!postMessage) throw new Error("Worker
not initialized")` — thrown before any state update, so the session
state is unchanged; then the activation guard returns silently; then
`setState({ lastPostAt: new Date() })` followed by the dispatch, through
`port2` when a message channel exists.  Note it never consults
`this.mounted`. -/
def postMessage (b : Bridge δ ε) (d : δ) (now : Nat) :
    Bridge δ ε × SendOutcome δ :=
  match b.worker with
  | none => (b, SendOutcome.notInitialized)
  | some w =>
    if stateBlocks w then (b, SendOutcome.ignored)
    else
      ({ b with st := { b.st with lastPostAt := some now } },
       SendOutcome.posted (serialize b.props d) b.messageChannel)

/-- `componentWillUnmount`: clear `this.mounted`, then
`this.props.worker || this.worker.terminate()`.  The second component
records whether `terminate` was invoked. -/
def componentWillUnmount (b : Bridge δ ε) : Bridge δ ε × Bool :=
  ({ b with mounted := false }, b.props.workerProp.isNone)

/-- Deliver a sequence of inbound message events (payload and clock
reading) to the instance, collecting the notifications in order. -/
def processMessages (b : Bridge δ ε) (evs : List (δ × Nat)) :
    Bridge δ ε × List (Notification δ ε) :=
  match evs with
  | [] => (b, [])
  | e :: rest =>
    let r := onMessage b e.1 e.2
    let r2 := processMessages r.1 rest
    (r2.1, r.2 ++ r2.2)

/-- What a conditional view helper did when evaluated: threw a
`TypeError` (a property access on the `undefined` context value),
rendered `null`, or rendered its content (passing `info` to a function
child). -/
inductive RenderResult (γ : Type) where
  | typeError
  | nullRender
  | content (info : γ)
  deriving Repr, DecidableEq

/-- The default value of the observation channel:
`React.createContext()` is called with no argument, so a consumer
outside any provider receives `undefined`, modelled as `none`. -/
def contextDefault : Option (SessionState δ ε) :=
  none

/-- `WebWorker.Pending`: reads the context value; `state.data !==
undefined` throws a `TypeError` when the value is `undefined`; otherwise
renders `null` once `data` is present, renders `null` on a present
`error` unless `persist` is set, else renders its content with the
state. -/
def WebWorker.Pending (ctxValue : Option (SessionState δ ε))
    (persist : Bool) : RenderResult (SessionState δ ε) :=
  match ctxValue with
  | none => RenderResult.typeError
  | some st =>
    if st.data.isSome then RenderResult.nullRender
    else if !persist && st.error.isSome then RenderResult.nullRender
    else RenderResult.content st

/-- `WebWorker.Data`: reads the context value; `state.data ===
undefined` throws a `TypeError` when the value is `undefined`; renders
`null` while `data` is absent, else renders its content with the
data. -/
def WebWorker.Data (ctxValue : Option (SessionState δ ε)) :
    RenderResult δ :=
  match ctxValue with
  | none => RenderResult.typeError
  | some st =>
    match st.data with
    | none => RenderResult.nullRender
    | some d => RenderResult.content d

/-- `WebWorker.Error`: reads the context value; `state.error ===
undefined` throws a `TypeError` when the value is `undefined`; renders
`null` while `error` is absent, else renders its content with the
error. -/
def WebWorker.Error (ctxValue : Option (SessionState δ ε)) :
    RenderResult ε :=
  match ctxValue with
  | none => RenderResult.typeError
  | some st =>
    match st.error with
    | none => RenderResult.nullRender
    | some e => RenderResult.content e

/-- `true` exactly when the helper reached its content branch. -/
def rendersContent {γ : Type} : RenderResult γ → Bool
  | RenderResult.content _ => true
  | _ => false

/-! ### Concrete fixtures used by the witnesses and counterexamples -/

/-- Props with a `url` and both notification callbacks, no parser or
serializer. -/
def pEx : Props Nat Nat :=
  { url := some "worker.js", options := none, workerProp := none,
    parser := none, serializer := none, onMessageCb := true,
    onErrorCb := true }

/-- The instance obtained by mounting `pEx`. -/
def bEx : Bridge Nat Nat :=
  { props := pEx, st := initialState, worker := some newDedicatedWorker,
    messageChannel := false, binding := some EventBinding.direct,
    createdFromUrl := true, mounted := true }

/-- `bEx` after teardown: `mounted` cleared, handle still held. -/
def bExDown : Bridge Nat Nat :=
  { bEx with mounted := false }

/-- An instance before any handle is attached (constructor ran,
`componentDidMount` did not). -/
def bUnattached : Bridge Nat Nat :=
  { props := pEx, st := initialState, worker := none,
    messageChannel := false, binding := none, createdFromUrl := false,
    mounted := false }

/-- A service-worker-like handle still in state "installing": no direct
`onmessage` slot, activation guard blocks sends. -/
def wSW : Handle :=
  { hasOnMessage := false, swState := some "installing" }

/-- Props supplying `wSW` as the `worker` prop. -/
def pSW : Props Nat Nat :=
  { url := none, options := none,
    workerProp := some { controller := none, self := wSW },
    parser := none, serializer := none, onMessageCb := false,
    onErrorCb := false }

/-- The instance obtained by mounting `pSW`. -/
def bSW : Bridge Nat Nat :=
  { props := pSW, st := initialState, worker := some wSW,
    messageChannel := true, binding := some EventBinding.channelPort1,
    createdFromUrl := false, mounted := true }

/-- `bSW` after teardown. -/
def bSWDown : Bridge Nat Nat :=
  { bSW with mounted := false }

/-- An activated service-worker handle reached through
`worker.controller`: no direct `onmessage` slot, sends allowed. -/
def wCh : Handle :=
  { hasOnMessage := false, swState := some "activated" }

/-- Props supplying a container whose `controller` is `wCh`. -/
def pCh : Props Nat Nat :=
  { url := none, options := none,
    workerProp := some { controller := some wCh,
                         self := { hasOnMessage := false, swState := none } },
    parser := none, serializer := none, onMessageCb := false,
    onErrorCb := false }

/-- The instance obtained by mounting `pCh`. -/
def bCh : Bridge Nat Nat :=
  { props := pCh, st := initialState, worker := some wCh,
    messageChannel := true, binding := some EventBinding.channelPort1,
    createdFromUrl := false, mounted := true }

/-! ### Helper lemmas about message sequences -/

/-- Unfolding `processMessages` on a cons. -/
theorem processMessages_cons (b : Bridge δ ε) (e : δ × Nat)
    (rest : List (δ × Nat)) :
    processMessages b (e :: rest)
      = ((processMessages (onMessage b e.1 e.2).1 rest).1,
         (onMessage b e.1 e.2).2
           ++ (processMessages (onMessage b e.1 e.2).1 rest).2) := by
  simp [processMessages]

/-- On a mounted instance, `onMessage` performs the explicit state
update and emits the optional notification. -/
theorem onMessage_mounted_eq (b : Bridge δ ε) (hm : b.mounted = true)
    (d : δ) (t : Nat) :
    onMessage b d t
      = ({ b with st := { b.st with
             data := some (parse b.props d)
             error := none
             messages := b.st.messages ++ [{ data := parse b.props d, date := t }]
             updatedAt := some t } },
         if b.props.onMessageCb then [Notification.message (parse b.props d)]
         else []) := by
  simp [onMessage, hm]

/-- Delivering a message sequence to a mounted instance preserves the
props, the mounted flag, `errors` and `lastPostAt`, and appends the
parsed payloads to `messages` in delivery order. -/
theorem processMessages_preserves (evs : List (δ × Nat)) :
    ∀ b : Bridge δ ε, b.mounted = true →
      (processMessages b evs).1.props = b.props
    ∧ (processMessages b evs).1.mounted = true
    ∧ (processMessages b evs).1.st.messages
        = b.st.messages
            ++ evs.map (fun e => { data := parse b.props e.1, date := e.2 })
    ∧ (processMessages b evs).1.st.errors = b.st.errors
    ∧ (processMessages b evs).1.st.lastPostAt = b.st.lastPostAt := by
  induction evs with
  | nil =>
    intro b hm
    simp [processMessages, hm]
  | cons e rest ih =>
    intro b hm
    rw [processMessages_cons, onMessage_mounted_eq b hm]
    obtain ⟨ih1, ih2, ih3, ih4, ih5⟩ :=
      ih { b with st := { b.st with
             data := some (parse b.props e.1)
             error := none
             messages := b.st.messages
               ++ [{ data := parse b.props e.1, date := e.2 }]
             updatedAt := some e.2 } } hm
    refine ⟨?_, ?_, ?_, ?_, ?_⟩ <;>
      simp [ih1, ih2, ih3, ih4, ih5, List.append_assoc]

/-- Delivering a nonempty message sequence to a mounted instance leaves
`lastData`, `lastError` and `updatedAt` determined by the last event. -/
theorem processMessages_last (evs : List (δ × Nat)) :
    ∀ (hne : evs ≠ []) (b : Bridge δ ε), b.mounted = true →
      (processMessages b evs).1.st.data
        = some (parse b.props (evs.getLast hne).1)
    ∧ (processMessages b evs).1.st.error = none
    ∧ (processMessages b evs).1.st.updatedAt = some (evs.getLast hne).2 := by
  induction evs with
  | nil =>
    intro hne
    exact absurd rfl hne
  | cons e rest ih =>
    intro hne b hm
    rw [processMessages_cons, onMessage_mounted_eq b hm]
    cases rest with
    | nil =>
      refine ⟨?_, ?_, ?_⟩ <;> simp [processMessages]
    | cons f rs =>
      obtain ⟨ih1, ih2, ih3⟩ :=
        ih (List.cons_ne_nil f rs)
          { b with st := { b.st with
               data := some (parse b.props e.1)
               error := none
               messages := b.st.messages
                 ++ [{ data := parse b.props e.1, date := e.2 }]
               updatedAt := some e.2 } } hm
      refine ⟨?_, ?_, ?_⟩ <;>
        simp [ih1, ih2, ih3, List.getLast_cons]

/-- Delivering a message sequence to a mounted instance emits one
notification per event, with the parsed payload, exactly when the
`onMessage` prop is present. -/
theorem processMessages_notifs (evs : List (δ × Nat)) :
    ∀ b : Bridge δ ε, b.mounted = true →
      (processMessages b evs).2
        = (if b.props.onMessageCb then
             evs.map (fun e => Notification.message (parse b.props e.1))
           else []) := by
  induction evs with
  | nil =>
    intro b hm
    simp [processMessages]
  | cons e rest ih =>
    intro b hm
    rw [processMessages_cons, onMessage_mounted_eq b hm]
    have ihh :=
      ih { b with st := { b.st with
             data := some (parse b.props e.1)
             error := none
             messages := b.st.messages
               ++ [{ data := parse b.props e.1, date := e.2 }]
             updatedAt := some e.2 } } hm
    cases hcb : b.props.onMessageCb <;> simp [ihh, hcb]

/-! ### Claims -/

/-- C1: delivering a sequence of N inbound message events to a freshly
attached, not-torn-down Bridge leaves `messages` as the N parsed,
timestamped payloads in delivery order (so it has length N), sets
`lastData` to the parser transform of the N-th payload (identity when no
parser is supplied), clears `lastError`, sets `updatedAt` to the last
event's timestamp, and invokes the optional `onMessage` notification
callback with each parsed payload after the corresponding state
update. -/
theorem messages_sequence_spec (p : Props δ ε) (b : Bridge δ ε)
    (evs : List (δ × Nat)) (hmount : componentDidMount p = some b)
    (hne : evs ≠ []) :
    (processMessages b evs).1.st.messages
      = evs.map (fun e => { data := parse p e.1, date := e.2 })
  ∧ (processMessages b evs).1.st.messages.length = evs.length
  ∧ (processMessages b evs).1.st.data = some (parse p (evs.getLast hne).1)
  ∧ (processMessages b evs).1.st.error = none
  ∧ (processMessages b evs).1.st.updatedAt = some (evs.getLast hne).2
  ∧ (processMessages b evs).2
      = (if p.onMessageCb then
           evs.map (fun e => Notification.message (parse p e.1))
         else []) := by
  have hb : b.props = p ∧ b.mounted = true ∧ b.st = initialState := by
    cases hw : resolveWorker p with
    | none => simp [componentDidMount, hw] at hmount
    | some w =>
      simp [componentDidMount, hw] at hmount
      subst hmount
      exact ⟨rfl, rfl, rfl⟩
  obtain ⟨hp, hm, hst⟩ := hb
  obtain ⟨a1, a2, a3, a4, a5⟩ := processMessages_preserves evs b hm
  obtain ⟨l1, l2, l3⟩ := processMessages_last evs hne b hm
  have n1 := processMessages_notifs evs b hm
  rw [hp, hst] at a3
  rw [hp] at l1 n1
  have hmsgs : (processMessages b evs).1.st.messages
      = evs.map (fun e => { data := parse p e.1, date := e.2 }) := by
    simpa [initialState] using a3
  refine ⟨hmsgs, ?_, l1, l2, l3, n1⟩
  rw [hmsgs, List.length_map]

/-- Witness for C1: mounting `pEx` and delivering two messages. -/
theorem messages_sequence_spec_witness :
    componentDidMount pEx = some bEx
  ∧ ([((1 : Nat), (10 : Nat)), (2, 20)] ≠ [])
  ∧ ((processMessages bEx [(1, 10), (2, 20)]).1.st.messages
       = [{ data := 1, date := 10 }, { data := 2, date := 20 }]
     ∧ (processMessages bEx [(1, 10), (2, 20)]).1.st.messages.length = 2
     ∧ (processMessages bEx [(1, 10), (2, 20)]).1.st.data = some 2
     ∧ (processMessages bEx [(1, 10), (2, 20)]).1.st.error = none
     ∧ (processMessages bEx [(1, 10), (2, 20)]).1.st.updatedAt = some 20
     ∧ (processMessages bEx [(1, 10), (2, 20)]).2
         = [Notification.message 1, Notification.message 2]) := by
  have h := messages_sequence_spec pEx bEx [(1, 10), (2, 20)] rfl (by decide)
  exact ⟨rfl, by decide, h⟩

/-- C3: processing an error event on an attached, not-torn-down Bridge
appends `{error, now}` to `errors`, sets `lastError` to the error, sets
`updatedAt` to now, invokes the optional `onError` notification callback
with the error afterward, and leaves `lastData` and `messages`
unchanged. -/
theorem error_event_spec (b : Bridge δ ε) (e : ε) (t : Nat)
    (hm : b.mounted = true) :
    (onError b e t).1.st.errors = b.st.errors ++ [{ error := e, date := t }]
  ∧ (onError b e t).1.st.error = some e
  ∧ (onError b e t).1.st.updatedAt = some t
  ∧ (onError b e t).1.st.data = b.st.data
  ∧ (onError b e t).1.st.messages = b.st.messages
  ∧ (onError b e t).2
      = (if b.props.onErrorCb then [Notification.error e] else []) := by
  simp [onError, hm]

/-- Witness for C3 at a concrete mounted instance. -/
theorem error_event_spec_witness :
    bEx.mounted = true
  ∧ ((onError bEx 7 3).1.st.errors = bEx.st.errors ++ [{ error := 7, date := 3 }]
     ∧ (onError bEx 7 3).1.st.error = some 7
     ∧ (onError bEx 7 3).1.st.updatedAt = some 3
     ∧ (onError bEx 7 3).1.st.data = bEx.st.data
     ∧ (onError bEx 7 3).1.st.messages = bEx.st.messages
     ∧ (onError bEx 7 3).2
         = (if bEx.props.onErrorCb then [Notification.error 7] else [])) :=
  ⟨rfl, error_event_spec bEx 7 3 rfl⟩

/-- C5: message and error events delivered after teardown are ignored
entirely: the instance (hence the whole session state) is unchanged and
no notification callback is invoked. -/
theorem late_callback_swallowed (b : Bridge δ ε) (d : δ) (e : ε)
    (t₁ t₂ : Nat) (hm : b.mounted = false) :
    onMessage b d t₁ = (b, []) ∧ onError b e t₂ = (b, []) := by
  constructor <;> simp [onMessage, onError, hm]

/-- Witness for C5 at a concrete torn-down instance. -/
theorem late_callback_swallowed_witness :
    bExDown.mounted = false
  ∧ (onMessage bExDown 1 2 = (bExDown, [])
     ∧ onError bExDown 5 6 = (bExDown, [])) :=
  ⟨rfl, late_callback_swallowed bExDown 1 5 2 6 rfl⟩

/-- C6: inside a provider, the `Pending` helper renders its content
exactly when `lastData` is absent and (`lastError` is absent or the
`persist` flag is set). -/
theorem pending_renders_iff (st : SessionState δ ε) (persist : Bool) :
    rendersContent (WebWorker.Pending (some st) persist)
      = (st.data.isNone && (st.error.isNone || persist)) := by
  cases hd : st.data <;> cases he : st.error <;> cases persist <;>
    simp [WebWorker.Pending, rendersContent, hd, he]

/-- C8 counterexample: outside any provider the context value is the
`undefined` default, and each helper hits a `TypeError` on its first
property access instead of rendering without error. -/
theorem helpers_outside_provider_cex :
    (contextDefault (δ := Nat) (ε := Nat)) = none
  ∧ WebWorker.Pending (contextDefault (δ := Nat) (ε := Nat)) false
      = RenderResult.typeError
  ∧ WebWorker.Data (contextDefault (δ := Nat) (ε := Nat))
      = RenderResult.typeError
  ∧ WebWorker.Error (contextDefault (δ := Nat) (ε := Nat))
      = RenderResult.typeError :=
  ⟨rfl, rfl, rfl, rfl⟩

/-- C8 amended: evaluating any of the three helpers outside an active
Bridge reads the `undefined` context default and raises a `TypeError`
when the helper accesses the state. -/
theorem helpers_outside_provider_raise (persist : Bool) :
    WebWorker.Pending (contextDefault (δ := δ) (ε := ε)) persist
      = RenderResult.typeError
  ∧ WebWorker.Data (contextDefault (δ := δ) (ε := ε))
      = RenderResult.typeError
  ∧ WebWorker.Error (contextDefault (δ := δ) (ε := ε))
      = RenderResult.typeError :=
  ⟨rfl, rfl, rfl⟩

/-- C9: when the attached handle has a (truthy) `state` property whose
value is not "activated", `postMessage` returns silently: nothing is
raised, nothing is dispatched, and the session state (in particular
`lastPostAt`) is unchanged. -/
theorem inactive_worker_send_ignored (b : Bridge δ ε) (w : Handle)
    (s : String) (d : δ) (now : Nat) (hw : b.worker = some w)
    (hs : w.swState = some s) (hne : s ≠ "activated") :
    postMessage b d now = (b, SendOutcome.ignored) := by
  have hblock : stateBlocks w = true := by
    simp [stateBlocks, hs, hne]
  simp [postMessage, hw, hblock]

/-- Witness for C9 at a concrete "installing" service worker. -/
theorem inactive_worker_send_ignored_witness :
    bSW.worker = some wSW
  ∧ wSW.swState = some "installing"
  ∧ "installing" ≠ "activated"
  ∧ postMessage bSW 5 7 = (bSW, SendOutcome.ignored) :=
  ⟨rfl, rfl, by decide,
   inactive_worker_send_ignored bSW wSW "installing" 5 7 rfl rfl (by decide)⟩

/-- C2 counterexample: an attached service-worker handle in state
"installing" refutes "after a handle is attached, send(x) updates
`lastPostAt` to now and dispatches serializer(x)": the send is silently
ignored and the session state (with `lastPostAt` still absent) is
unchanged. -/
theorem send_after_attach_cex :
    componentDidMount pSW = some bSW
  ∧ bSW.st.lastPostAt = none
  ∧ (postMessage bSW 5 7).1.st = bSW.st
  ∧ (postMessage bSW 5 7).2 = SendOutcome.ignored :=
  ⟨rfl, rfl, rfl, rfl⟩

/-- C2 amended: send raises the uninitialized-dispatch error
synchronously when no handle is attached, leaving the session state
unchanged; after a handle is attached, provided the handle has no truthy
`state` property or its state is "activated", send updates `lastPostAt`
to now and dispatches serializer(x) (x verbatim without a serializer) to
the handle, through the message channel when one was established. -/
theorem send_spec_amended (b₁ b₂ : Bridge δ ε) (w : Handle) (d₁ d₂ : δ)
    (n₁ n₂ : Nat) (h₁ : b₁.worker = none) (h₂ : b₂.worker = some w)
    (hs : stateBlocks w = false) :
    postMessage b₁ d₁ n₁ = (b₁, SendOutcome.notInitialized)
  ∧ (postMessage b₂ d₂ n₂).1.st.lastPostAt = some n₂
  ∧ (postMessage b₂ d₂ n₂).2
      = SendOutcome.posted (serialize b₂.props d₂) b₂.messageChannel := by
  refine ⟨?_, ?_, ?_⟩ <;> simp [postMessage, h₁, h₂, hs]

/-- Witness for the amended C2: an unattached instance and a mounted
dedicated-worker instance. -/
theorem send_spec_amended_witness :
    bUnattached.worker = none
  ∧ bEx.worker = some newDedicatedWorker
  ∧ stateBlocks newDedicatedWorker = false
  ∧ (postMessage bUnattached 1 2 = (bUnattached, SendOutcome.notInitialized)
     ∧ (postMessage bEx 3 4).1.st.lastPostAt = some 4
     ∧ (postMessage bEx 3 4).2
         = SendOutcome.posted (serialize bEx.props 3) bEx.messageChannel) :=
  ⟨rfl, rfl, rfl,
   send_spec_amended bUnattached bEx newDedicatedWorker 1 3 2 4 rfl rfl rfl⟩

/-- C4: under the spec's contract that `url` and `worker` are mutually
exclusive, teardown invokes the handle's `terminate` exactly when the
handle was internally constructed from `url` (caller-supplied handles
are never terminated), and teardown marks the instance unmounted. -/
theorem teardown_terminate_iff (p : Props δ ε) (b : Bridge δ ε)
    (hmount : componentDidMount p = some b)
    (hexcl : ¬(p.url.isSome = true ∧ p.workerProp.isSome = true)) :
    ((componentWillUnmount b).2 = true ↔ b.createdFromUrl = true)
  ∧ (componentWillUnmount b).1.mounted = false := by
  cases hu : p.url with
  | some u =>
    cases hp : p.workerProp with
    | some sw => exact absurd ⟨by simp [hu], by simp [hp]⟩ hexcl
    | none =>
      simp [componentDidMount, resolveWorker, hu] at hmount
      subst hmount
      simp [componentWillUnmount, hu, hp]
  | none =>
    cases hp : p.workerProp with
    | some sw =>
      simp [componentDidMount, resolveWorker, hu, hp] at hmount
      subst hmount
      simp [componentWillUnmount, hu, hp]
    | none =>
      simp [componentDidMount, resolveWorker, hu, hp] at hmount

/-- Witness for C4 at a url-constructed instance. -/
theorem teardown_terminate_iff_witness :
    componentDidMount pEx = some bEx
  ∧ ¬(pEx.url.isSome = true ∧ pEx.workerProp.isSome = true)
  ∧ (((componentWillUnmount bEx).2 = true ↔ bEx.createdFromUrl = true)
     ∧ (componentWillUnmount bEx).1.mounted = false) :=
  ⟨rfl, by decide, teardown_terminate_iff pEx bEx rfl (by decide)⟩

/-- C7: when the resolved handle has no direct `onmessage` slot, mount
creates a message channel and binds the local port's events (instead of
binding the handle directly), and a subsequent send that passes the
activation guard dispatches through the channel; a handle with a direct
slot is bound and dispatched to directly. -/
theorem channel_wiring_spec (p : Props δ ε) (b : Bridge δ ε) (w : Handle)
    (d : δ) (now : Nat) (hmount : componentDidMount p = some b)
    (hw : resolveWorker p = some w) (hs : stateBlocks w = false) :
    b.worker = some w
  ∧ b.binding = some (if w.hasOnMessage then EventBinding.direct
                      else EventBinding.channelPort1)
  ∧ b.messageChannel = !w.hasOnMessage
  ∧ (postMessage b d now).2
      = SendOutcome.posted (serialize p d) (!w.hasOnMessage) := by
  simp [componentDidMount, hw] at hmount
  subst hmount
  refine ⟨rfl, rfl, rfl, ?_⟩
  simp [postMessage, hs]

/-- Witness for C7 at an activated service worker reached through a
container's `controller` (the channel-wiring branch). -/
theorem channel_wiring_spec_witness :
    componentDidMount pCh = some bCh
  ∧ resolveWorker pCh = some wCh
  ∧ stateBlocks wCh = false
  ∧ (bCh.worker = some wCh
     ∧ bCh.binding = some (if wCh.hasOnMessage then EventBinding.direct
                           else EventBinding.channelPort1)
     ∧ bCh.messageChannel = !wCh.hasOnMessage
     ∧ (postMessage bCh 5 7).2
         = SendOutcome.posted (serialize pCh 5) (!wCh.hasOnMessage)) :=
  ⟨rfl, rfl, by decide, channel_wiring_spec pCh bCh wCh 5 7 rfl rfl (by decide)⟩

/-- C10 counterexample: after teardown with an "installing"
service-worker handle still held, send neither updates `lastPostAt` nor
dispatches — it is silently ignored by the activation guard, refuting
"send still updates `lastPostAt` and still dispatches" for every held
handle. -/
theorem send_after_teardown_cex :
    bSWDown.mounted = false
  ∧ bSWDown.worker = some wSW
  ∧ (postMessage bSWDown 3 9).1.st.lastPostAt = none
  ∧ (postMessage bSWDown 3 9).2 = SendOutcome.ignored :=
  ⟨rfl, rfl, rfl, rfl⟩

/-- C10 amended: teardown does not disable send — `postMessage` never
consults the teardown flag.  After teardown, with a handle still held
that has no truthy `state` property or is "activated", send still
updates `lastPostAt` to now and still dispatches the serialized payload
to the handle. -/
theorem send_after_teardown_amended (b : Bridge δ ε) (w : Handle) (d : δ)
    (now : Nat) (hm : b.mounted = false) (hw : b.worker = some w)
    (hs : stateBlocks w = false) :
    (postMessage b d now).1.st.lastPostAt = some now
  ∧ (postMessage b d now).2
      = SendOutcome.posted (serialize b.props d) b.messageChannel
  ∧ (postMessage b d now).1.mounted = false := by
  refine ⟨?_, ?_, ?_⟩ <;> simp [postMessage, hw, hs, hm]

/-- Witness for the amended C10 at a torn-down dedicated-worker
instance. -/
theorem send_after_teardown_amended_witness :
    bExDown.mounted = false
  ∧ bExDown.worker = some newDedicatedWorker
  ∧ stateBlocks newDedicatedWorker = false
  ∧ ((postMessage bExDown 1 2).1.st.lastPostAt = some 2
     ∧ (postMessage bExDown 1 2).2
         = SendOutcome.posted (serialize bExDown.props 1) bExDown.messageChannel
     ∧ (postMessage bExDown 1 2).1.mounted = false) :=
  ⟨rfl, rfl, rfl,
   send_after_teardown_amended bExDown newDedicatedWorker 1 2 rfl rfl rfl⟩

end ReactWebworker
